import Mathlib

/-!
Verification of the UdaPlay market-research agent's orchestration core.

The definitions below are a shallow embedding of the Python sources:
  * `src/agent/state_machine.py`  — guarded state machine with JSON persistence
  * `src/agent/udaplay_agent.py`  — the `process_query` pipeline
  * `src/tools/evaluate_retrieval.py` — LLM-judge evaluation gateway
  * `src/tools/retrieve_game.py` and `src/database/vector_store.py` — retrieval
  * `src/tools/advanced_memory.py` — bounded learning memory store

External collaborators (the OpenAI/Tavily clients, ChromaDB backend, the
filesystem clock) are modelled as explicit inputs: each call either returns a
value or an error string, mirroring a Python call that returns or raises.
Timestamps are abstract values threaded in by the caller.
-/

namespace UdaPlay

/-! ## State machine (src/agent/state_machine.py) -/

/-- The 5-state enum `AgentState` from `state_machine.py`. -/
inductive AgentState where
  | idle
  | retrieving
  | evaluating
  | webSearch
  | answering
deriving DecidableEq, Repr

/-- The `_allowed` transition table of `AgentStateMachine`. -/
def allowed : AgentState → List AgentState
  | .idle => [.retrieving]
  | .retrieving => [.evaluating]
  | .evaluating => [.webSearch, .answering]
  | .webSearch => [.answering]
  | .answering => [.idle]

/-- Contents of the JSON persistence file `{"state", "last_transition_time"}`.
Timestamps are abstracted to `Nat`. -/
structure StateFile where
  state : AgentState
  time : Nat
deriving DecidableEq, Repr

/-- The `AgentStateMachine` object together with its persistence file.
`persistConfigured` models `self._persist_file is not None`; `fileContents`
models what is currently stored in that file (if one is configured). -/
structure AgentStateMachine where
  state : AgentState
  lastTransitionTime : Nat
  persistConfigured : Bool
  fileContents : Option StateFile
deriving DecidableEq, Repr

/-- `AgentStateMachine._persist`: writes `{state, last_transition_time}` to the
configured file; a no-op when no persist file is configured. -/
def persistSM (m : AgentStateMachine) : AgentStateMachine :=
  if m.persistConfigured then
    { m with fileContents := some ⟨m.state, m.lastTransitionTime⟩ }
  else m

/-- `AgentStateMachine.transition(target)`: guarded by the `_allowed` table;
on success mutates the state, updates the last-transition timestamp to the
current clock value `now`, persists, and returns `true`; otherwise returns
`false` leaving the machine untouched. -/
def transition (m : AgentStateMachine) (target : AgentState) (now : Nat) :
    AgentStateMachine × Bool :=
  if target ∈ allowed m.state then
    (persistSM { m with state := target, lastTransitionTime := now }, true)
  else
    (m, false)

/-- `AgentStateMachine.reset()`: unconditionally back to idle, then persist. -/
def resetSM (m : AgentStateMachine) (now : Nat) : AgentStateMachine :=
  persistSM { m with state := AgentState.idle, lastTransitionTime := now }

/-- The allowed transition relation exactly as the specification enumerates it:
Idle→Retrieving, Retrieving→Evaluating, Evaluating→WebSearch|Answering,
WebSearch→Answering, Answering→Idle. -/
def allowedPairsSpec : List (AgentState × AgentState) :=
  [(.idle, .retrieving), (.retrieving, .evaluating),
   (.evaluating, .webSearch), (.evaluating, .answering),
   (.webSearch, .answering), (.answering, .idle)]

theorem mem_allowed_iff_pair (s t : AgentState) :
    t ∈ allowed s ↔ (s, t) ∈ allowedPairsSpec := by
  cases s <;> cases t <;> simp [allowed, allowedPairsSpec]

/-- C1: for every current state S and target T, `transition` returns true iff
(S,T) is one of the five allowed edges; on success the state becomes T and the
timestamp is updated and (when a persist file is configured) persisted; on
failure the machine — state, timestamp, and file — is entirely unchanged and
the call returns false. -/
theorem transition_correct (m : AgentStateMachine) (t : AgentState) (now : Nat) :
    ((transition m t now).2 = true ↔ (m.state, t) ∈ allowedPairsSpec) ∧
    (transition m t now).1.state = (if t ∈ allowed m.state then t else m.state) ∧
    (transition m t now).1.lastTransitionTime =
      (if t ∈ allowed m.state then now else m.lastTransitionTime) ∧
    (transition m t now).1.fileContents =
      (if t ∈ allowed m.state ∧ m.persistConfigured = true then some ⟨t, now⟩
       else m.fileContents) ∧
    ((transition m t now).2 = false → (transition m t now).1 = m) := by
  by_cases h : t ∈ allowed m.state <;>
    refine ⟨?_, ?_, ?_, ?_, ?_⟩ <;>
    by_cases hp : m.persistConfigured = true <;>
    simp [transition, persistSM, h, hp, ← mem_allowed_iff_pair]

/-- C1 witness: a concrete rejected transition (idle → answering) returns false
and leaves the machine unchanged, and a concrete accepted transition
(idle → retrieving) succeeds. -/
theorem transition_correct_witness :
    (transition ⟨.idle, 0, true, none⟩ .answering 5).2 = false ∧
    (transition ⟨.idle, 0, true, none⟩ .answering 5).1 = ⟨.idle, 0, true, none⟩ ∧
    (transition ⟨.idle, 0, true, none⟩ .retrieving 5).2 = true := by
  refine ⟨by decide, ?_, by decide⟩
  exact (transition_correct ⟨.idle, 0, true, none⟩ .answering 5).2.2.2.2 (by decide)

/-! ## Pipeline data model (src/models/game.py, parsed JSON payloads) -/

/-- The `Game` record of `src/models/game.py`. -/
structure Game where
  name : String
  platform : String
  genre : String
  publisher : String
  description : String
  yearOfRelease : Int
deriving DecidableEq, Repr

/-- Parsed output of the retrieve tool as consumed by `process_query`
(`retrieval_data.get("games")`). -/
structure RetrievalData where
  games : List Game
deriving DecidableEq, Repr

/-- Parsed output of the evaluate tool as consumed by `process_query`
(the fields of `EvaluationReport`). -/
structure EvalData where
  useful : Bool
  description : String
  confidence : ℚ
  recommendation : String
deriving DecidableEq, Repr

/-- One web search result (`WebSearchResult` fields used by the agent). -/
structure WebResult where
  title : String
  url : String
  content : String
  relevanceScore : ℚ
deriving DecidableEq, Repr

/-- Parsed output of the web search tool (`web_results.get("results")`). -/
structure WebResults where
  results : List WebResult
deriving DecidableEq, Repr

/-- The `AgentResponse` record (timestamp omitted: it is a constructor-time
clock read no claim depends on). -/
structure AgentResponse where
  answer : String
  confidence : ℚ
  sources : List String
  searchMethod : String
deriving DecidableEq, Repr

/-- What the synthesis LLM call yields once it returns: the message content
(`response.choices[0].message.content`, possibly `None`) and the result of the
trailing `confidence:` marker extraction (`none` when absent or unparsable). -/
structure LLMAnswer where
  content : Option String
  parsedConfidence : Option ℚ
deriving DecidableEq, Repr

/-- Dictionary shape of `_generate_final_answer`'s return value. -/
structure FinalAnswer where
  answer : String
  confidence : ℚ
  sources : List String
  searchMethod : String
deriving DecidableEq, Repr

/-- The external collaborators consulted during one `process_query` call.
Each field is what the corresponding Python call would produce: `Except.ok`
for a normal return (after JSON parsing), `Except.error e` for a raised
exception with text `e`. -/
structure Env where
  retrieval : Except String RetrievalData
  evaluation : Except String EvalData
  web : Except String WebResults
  llm : Except String LLMAnswer
deriving Repr

/-! ## The orchestration loop (src/agent/udaplay_agent.py) -/

/-- `UdaPlayAgent._generate_final_answer`: computes `sources` and
`search_method` from the available inputs, then calls the LLM. Note the source
line `search_method = "combined" if sources else "web_search"` runs after
`sources.append("web_search")`, so `sources` is never empty there. -/
def generateFinalAnswer (retrievalData : RetrievalData) (webResults : Option WebResults)
    (llm : Except String LLMAnswer) : Except String FinalAnswer :=
  let sources₀ : List String :=
    if retrievalData.games.isEmpty then [] else ["vector_db"]
  let hasWeb : Bool :=
    match webResults with
    | some w => !w.results.isEmpty
    | none => false
  let sources : List String := if hasWeb then sources₀ ++ ["web_search"] else sources₀
  let searchMethod : String :=
    if hasWeb then
      (if (sources₀ ++ ["web_search"]).isEmpty then "web_search" else "combined")
    else "vector_db"
  match llm with
  | .error e => .error e
  | .ok a =>
      .ok { answer := a.content.getD "No response generated",
            confidence := a.parsedConfidence.getD (mkRat 4 5),
            sources := sources,
            searchMethod := searchMethod }

/-- Step 3 of `process_query`:
`not evaluation_data.get("useful", False) or evaluation_data.get("confidence", 0.0) < 0.7`. -/
def useWebSearch (ed : EvalData) : Bool :=
  !ed.useful || decide (ed.confidence < mkRat 7 10)

/-- The calls `process_query` can make to its collaborators and to the state
machine. `smTransitionCall` is in the alphabet because `AgentStateMachine`
offers `transition`, so a run can in principle request one. -/
inductive Call where
  | retrieveCall
  | evaluateCall
  | webSearchCall
  | llmCall
  | smTransitionCall (target : AgentState)
  | smPersistCall
deriving DecidableEq, Repr

/-- The catch-all error response built by `process_query`'s `except` clause. -/
def errorResponse (e : String) : AgentResponse :=
  { answer := "I encountered an error while processing your question: " ++ e,
    confidence := 0,
    sources := [],
    searchMethod := "error" }

/-- Observable outcome of one `process_query` call: the returned response, the
trace of collaborator and state-machine calls, and the final state machine. -/
structure RunOut where
  response : AgentResponse
  calls : List Call
  sm : AgentStateMachine
deriving Repr

/-- `UdaPlayAgent.process_query`. The body is a `try` block: the first raising
stage aborts to the `except` clause, which returns `errorResponse`. The
fault-tolerant side-effect steps (persisting web documents via `add_document`,
memory learning, history append) sit in inner try/except blocks, never raise
out, and never touch the state machine; they are modelled separately below.
The one state-machine operation in the body is the explicit
`self.state_machine.persist()` before the successful return. -/
def processQuery (env : Env) (sm : AgentStateMachine) : RunOut :=
  match env.retrieval with
  | .error e => ⟨errorResponse e, [.retrieveCall], sm⟩
  | .ok retrievalData =>
    match env.evaluation with
    | .error e => ⟨errorResponse e, [.retrieveCall, .evaluateCall], sm⟩
    | .ok evaluationData =>
      if useWebSearch evaluationData then
        match env.web with
        | .error e =>
            ⟨errorResponse e, [.retrieveCall, .evaluateCall, .webSearchCall], sm⟩
        | .ok w =>
          match generateFinalAnswer retrievalData (some w) env.llm with
          | .error e =>
              ⟨errorResponse e,
               [.retrieveCall, .evaluateCall, .webSearchCall, .llmCall], sm⟩
          | .ok fa =>
              ⟨⟨fa.answer, fa.confidence, fa.sources, fa.searchMethod⟩,
               [.retrieveCall, .evaluateCall, .webSearchCall, .llmCall, .smPersistCall],
               persistSM sm⟩
      else
        match generateFinalAnswer retrievalData none env.llm with
        | .error e =>
            ⟨errorResponse e, [.retrieveCall, .evaluateCall, .llmCall], sm⟩
        | .ok fa =>
            ⟨⟨fa.answer, fa.confidence, fa.sources, fa.searchMethod⟩,
             [.retrieveCall, .evaluateCall, .llmCall, .smPersistCall],
             persistSM sm⟩

/-- The list of state-machine transition targets requested during a run. -/
def smTransitionRequests (calls : List Call) : List AgentState :=
  calls.filterMap fun c =>
    match c with
    | .smTransitionCall t => some t
    | _ => none

theorem persistSM_state (m : AgentStateMachine) : (persistSM m).state = m.state := by
  by_cases h : m.persistConfigured = true <;> simp [persistSM, h]

theorem persistSM_time (m : AgentStateMachine) :
    (persistSM m).lastTransitionTime = m.lastTransitionTime := by
  by_cases h : m.persistConfigured = true <;> simp [persistSM, h]

theorem useWebSearch_iff (ed : EvalData) :
    useWebSearch ed = true ↔ (ed.useful = false ∨ ed.confidence < mkRat 7 10) := by
  simp [useWebSearch]

/-- A mocked query environment in which the local database answers: retrieval
returns one game and the evaluation is `useful=True, confidence=0.9` (the
spec's end-to-end scenario). The web collaborator is set to raise so that any
consultation of it would be visible. -/
def localEnv : Env :=
  { retrieval := Except.ok
      ⟨[⟨"Mock Game", "MockPlatform", "Adventure", "MockPub", "A mock game used for tests", 2000⟩]⟩,
    evaluation := Except.ok ⟨true, "Mock evaluation: useful", mkRat 9 10, "proceed_with_answer"⟩,
    web := Except.error "web fallback must not be consulted",
    llm := Except.ok ⟨some "Mock Game was released in 2000.", some (mkRat 9 10)⟩ }

/-- A query environment in which the local database is empty, the evaluation
recommends the web, and the web fallback contributes one result. -/
def webOnlyEnv : Env :=
  { retrieval := Except.ok ⟨[]⟩,
    evaluation := Except.ok ⟨false, "No games were retrieved from the database", 0, "search_web"⟩,
    web := Except.ok ⟨[⟨"Mock Result", "https://example.com", "Mock content about Pokemon", mkRat 9 10⟩]⟩,
    llm := Except.ok ⟨some "According to the web, ...", some (mkRat 9 10)⟩ }

/-- C2: `process_query` never raises: whichever pipeline stage fails —
retrieval, evaluation, web fallback, or answer synthesis — the exception is
caught at the top level and converted into an `AgentResponse` with confidence
0.0, empty sources, search_method "error", and a human-readable answer
embedding the error text. -/
theorem process_query_never_raises (env : Env) (sm : AgentStateMachine) (e : String) :
    (env.retrieval = Except.error e →
      (processQuery env sm).response = errorResponse e) ∧
    (∀ rd, env.retrieval = Except.ok rd → env.evaluation = Except.error e →
      (processQuery env sm).response = errorResponse e) ∧
    (∀ rd ed, env.retrieval = Except.ok rd → env.evaluation = Except.ok ed →
      useWebSearch ed = true → env.web = Except.error e →
      (processQuery env sm).response = errorResponse e) ∧
    (∀ rd ed, env.retrieval = Except.ok rd → env.evaluation = Except.ok ed →
      useWebSearch ed = false → env.llm = Except.error e →
      (processQuery env sm).response = errorResponse e) ∧
    (∀ rd ed w, env.retrieval = Except.ok rd → env.evaluation = Except.ok ed →
      useWebSearch ed = true → env.web = Except.ok w → env.llm = Except.error e →
      (processQuery env sm).response = errorResponse e) ∧
    ((errorResponse e).confidence = 0 ∧ (errorResponse e).sources = [] ∧
      (errorResponse e).searchMethod = "error" ∧
      (errorResponse e).answer =
        "I encountered an error while processing your question: " ++ e) := by
  refine ⟨?_, ?_, ?_, ?_, ?_, rfl, rfl, rfl, rfl⟩
  · intro hr
    simp [processQuery, hr]
  · intro rd hr he
    simp [processQuery, hr, he]
  · intro rd ed hr he hw hweb
    simp [processQuery, hr, he, hw, hweb]
  · intro rd ed hr he hw hl
    simp [processQuery, hr, he, hw, generateFinalAnswer, hl]
  · intro rd ed w hr he hw hweb hl
    simp [processQuery, hr, he, hw, hweb, generateFinalAnswer, hl]

/-- C2 witness: with the retrieval stage raising "boom", `process_query`
returns the catch-all error response. -/
theorem process_query_never_raises_witness :
    (processQuery ⟨Except.error "boom", Except.error "x", Except.error "y", Except.error "z"⟩
        ⟨.idle, 0, true, none⟩).response = errorResponse "boom" :=
  (process_query_never_raises
    ⟨Except.error "boom", Except.error "x", Except.error "y", Except.error "z"⟩
    ⟨.idle, 0, true, none⟩ "boom").1 rfl

/-- C3: the web fallback collaborator is consulted iff the evaluation has
`useful == false` or `confidence < 0.7`; when `useful == true` and
`confidence ≥ 0.7` no web-fallback call occurs and, when synthesis returns,
`search_method` is "vector_db". -/
theorem web_fallback_decision (env : Env) (sm : AgentStateMachine)
    (rd : RetrievalData) (ed : EvalData)
    (hr : env.retrieval = Except.ok rd) (he : env.evaluation = Except.ok ed) :
    (Call.webSearchCall ∈ (processQuery env sm).calls ↔
      (ed.useful = false ∨ ed.confidence < mkRat 7 10)) ∧
    (ed.useful = true → ¬ ed.confidence < mkRat 7 10 → ∀ a, env.llm = Except.ok a →
      (processQuery env sm).response.searchMethod = "vector_db") := by
  constructor
  · rw [← useWebSearch_iff]
    by_cases hw : useWebSearch ed = true
    · simp only [processQuery, hr, he, hw, if_true]
      cases hweb : env.web with
      | error e => simp [hw]
      | ok w =>
        cases hg : generateFinalAnswer rd (some w) env.llm with
        | error e => simp [hg, hw]
        | ok fa => simp [hg, hw]
    · rw [Bool.not_eq_true] at hw
      simp only [processQuery, hr, he, hw, Bool.false_eq_true, if_false]
      cases hg : generateFinalAnswer rd none env.llm with
      | error e => simp [hg, hw]
      | ok fa => simp [hg, hw]
  · intro hu hc a hl
    have hw : useWebSearch ed = false := by
      simp [useWebSearch, hu, hc]
    simp [processQuery, hr, he, hw, generateFinalAnswer, hl]

/-- C3 witness: with a useful evaluation at confidence 0.9, the web
collaborator is not consulted and the response's search_method is
"vector_db". -/
theorem web_fallback_decision_witness :
    Call.webSearchCall ∉ (processQuery localEnv ⟨.idle, 0, true, none⟩).calls ∧
    (processQuery localEnv ⟨.idle, 0, true, none⟩).response.searchMethod = "vector_db" := by
  have h := web_fallback_decision localEnv ⟨.idle, 0, true, none⟩ _ _ rfl rfl
  refine ⟨fun hmem => ?_, h.2 rfl (by decide) _ rfl⟩
  rcases h.1.mp hmem with h1 | h2
  · exact absurd h1 (by decide)
  · exact absurd h2 (by decide)

/-- C4: with no local entries and one contributing web result, the synthesized
response's sources are exactly ["web_search"], yet its search_method is
"combined" and not "web_search": the source line
`search_method = "combined" if sources else "web_search"` runs right after
`sources.append("web_search")`, so its else branch is unreachable. -/
theorem search_method_web_only_is_combined :
    (processQuery webOnlyEnv ⟨.idle, 0, true, none⟩).response.sources = ["web_search"] ∧
    (processQuery webOnlyEnv ⟨.idle, 0, true, none⟩).response.searchMethod = "combined" ∧
    (processQuery webOnlyEnv ⟨.idle, 0, true, none⟩).response.searchMethod ≠ "web_search" := by
  refine ⟨rfl, rfl, by decide⟩

/-- C5 counterexample: in a complete, successful `process_query` run the
orchestration loop never requests any state-machine transition — in
particular the machine is never driven through Retrieving — and the machine
is still in its initial Idle state when the call returns. -/
theorem process_query_never_drives_sm :
    smTransitionRequests (processQuery localEnv ⟨.idle, 0, true, none⟩).calls = [] ∧
    AgentState.retrieving ∉
      smTransitionRequests (processQuery localEnv ⟨.idle, 0, true, none⟩).calls ∧
    (processQuery localEnv ⟨.idle, 0, true, none⟩).sm.state = AgentState.idle := by
  refine ⟨rfl, by decide, rfl⟩

theorem searchMethod_ne_error (rd : RetrievalData) (w : Option WebResults)
    (llm : Except String LLMAnswer) (fa : FinalAnswer)
    (h : generateFinalAnswer rd w llm = Except.ok fa) : fa.searchMethod ≠ "error" := by
  cases llm with
  | error e => simp [generateFinalAnswer] at h
  | ok a =>
    simp only [generateFinalAnswer, Except.ok.injEq] at h
    subst h
    by_cases h1 : (match w with | some ws => !ws.results.isEmpty | none => false) = true <;>
      simp [h1]

/-- C5 (amended): `process_query` requests no state-machine transition at all;
the machine's state and last-transition timestamp are unchanged by the call;
on the success path the loop forces one final state persist before returning,
while the error path leaves the machine (and its file) entirely untouched. -/
theorem process_query_sm_unchanged (env : Env) (sm : AgentStateMachine) :
    smTransitionRequests (processQuery env sm).calls = [] ∧
    (processQuery env sm).sm.state = sm.state ∧
    (processQuery env sm).sm.lastTransitionTime = sm.lastTransitionTime ∧
    ((processQuery env sm).response.searchMethod ≠ "error" →
      Call.smPersistCall ∈ (processQuery env sm).calls ∧
      (processQuery env sm).sm = persistSM sm) ∧
    ((processQuery env sm).response.searchMethod = "error" →
      (processQuery env sm).sm = sm) := by
  cases hr : env.retrieval with
  | error e =>
      simp [processQuery, hr, smTransitionRequests, errorResponse]
  | ok rd =>
    cases he : env.evaluation with
    | error e =>
        simp [processQuery, hr, he, smTransitionRequests, errorResponse]
    | ok ed =>
      by_cases hw : useWebSearch ed = true
      · simp only [processQuery, hr, he, hw, if_true]
        cases hweb : env.web with
        | error e => simp [smTransitionRequests, errorResponse]
        | ok w =>
          cases hg : generateFinalAnswer rd (some w) env.llm with
          | error e => simp [hg, smTransitionRequests, errorResponse]
          | ok fa =>
              simp only [hg]
              refine ⟨rfl, persistSM_state sm, persistSM_time sm,
                fun _ => ⟨by simp, by simp⟩, fun hcontra => ?_⟩
              exact absurd hcontra (searchMethod_ne_error rd (some w) env.llm fa hg)
      · rw [Bool.not_eq_true] at hw
        simp only [processQuery, hr, he, hw, Bool.false_eq_true, if_false]
        cases hg : generateFinalAnswer rd none env.llm with
        | error e => simp [hg, smTransitionRequests, errorResponse]
        | ok fa =>
            simp only [hg]
            refine ⟨rfl, persistSM_state sm, persistSM_time sm,
              fun _ => ⟨by simp, by simp⟩, fun hcontra => ?_⟩
            exact absurd hcontra (searchMethod_ne_error rd none env.llm fa hg)

/-- C5 witness: a concrete successful run forces the final persist. -/
theorem process_query_sm_unchanged_witness :
    (processQuery localEnv ⟨.idle, 3, true, none⟩).response.searchMethod ≠ "error" ∧
    (processQuery localEnv ⟨.idle, 3, true, none⟩).sm = persistSM ⟨.idle, 3, true, none⟩ := by
  exact ⟨by decide,
    ((process_query_sm_unchanged localEnv ⟨.idle, 3, true, none⟩).2.2.2.1 (by decide)).2⟩

/-! ## Evaluation gateway (src/tools/evaluate_retrieval.py) -/

/-- The `EvaluationReport` produced by `_create_evaluation_report`. -/
structure EvalReport where
  useful : Bool
  description : String
  confidence : ℚ
  recommendation : String
deriving DecidableEq, Repr

/-- Fields of the JSON object the judge LLM returns; each is optional because
`EvaluateRetrievalTool.__call__` reads them with `.get(key, default)`. -/
structure JudgeVerdict where
  useful : Option Bool
  description : Option String
  confidence : Option ℚ
  recommendation : Option String
deriving DecidableEq, Repr

/-- `EvaluateRetrievalTool.__call__`. `docs` is the outcome of
`json.loads(retrieved_docs).get("games", [])` (error on malformed input);
`llm` is the parsed judge verdict (error when the chat call or the response
parse raises). The whole body sits in a try/except returning the downgraded
`search_web` report on any exception. The second component records whether
the text-generation service was invoked. -/
def evaluateRetrievalCall (docs : Except String (List Game))
    (llm : Except String JudgeVerdict) : EvalReport × Bool :=
  match docs with
  | .error e => (⟨false, "Error during evaluation: " ++ e, 0, "search_web"⟩, false)
  | .ok games =>
    if games.isEmpty then
      (⟨false, "No games were retrieved from the database", 0, "search_web"⟩, false)
    else
      match llm with
      | .error e => (⟨false, "Error during evaluation: " ++ e, 0, "search_web"⟩, true)
      | .ok v =>
          (⟨v.useful.getD false, v.description.getD "", v.confidence.getD 0,
            v.recommendation.getD "search_web"⟩, true)

/-- C6: on an empty retrieval result the evaluation short-circuits to
`{useful:false, confidence:0.0, recommendation:"search_web"}` without invoking
the text-generation service; a malformed input or a failing LLM call yields
the same downgraded report with the error text in the description, and the
call never propagates an exception (it is a total function of its inputs). -/
theorem evaluate_retrieval_contract (docs : Except String (List Game))
    (llm : Except String JudgeVerdict) (e : String) :
    (docs = Except.ok [] →
      evaluateRetrievalCall docs llm =
        (⟨false, "No games were retrieved from the database", 0, "search_web"⟩, false)) ∧
    (docs = Except.error e →
      evaluateRetrievalCall docs llm =
        (⟨false, "Error during evaluation: " ++ e, 0, "search_web"⟩, false)) ∧
    (∀ games, docs = Except.ok games → games ≠ [] → llm = Except.error e →
      evaluateRetrievalCall docs llm =
        (⟨false, "Error during evaluation: " ++ e, 0, "search_web"⟩, true)) := by
  refine ⟨?_, ?_, ?_⟩
  · intro h
    simp [evaluateRetrievalCall, h]
  · intro h
    simp [evaluateRetrievalCall, h]
  · intro games h hne hl
    cases games with
    | nil => exact absurd rfl hne
    | cons g gs => simp [evaluateRetrievalCall, h, hl]

/-- C6 witness: a concrete empty retrieval yields the short-circuit report
with no LLM invocation (second component false). -/
theorem evaluate_retrieval_contract_witness :
    evaluateRetrievalCall (Except.ok []) (Except.error "llm is down") =
      (⟨false, "No games were retrieved from the database", 0, "search_web"⟩, false) :=
  (evaluate_retrieval_contract (Except.ok []) (Except.error "llm is down") "llm is down").1 rfl

/-! ## Document-store dedup (src/database/vector_store.py, add_document) -/

/-- Metadata passed to `add_document`; the dedup logic reads the `url` and
`title` keys with `metadata.get(...) or ""`, hence the `Option`s. -/
structure DocMetadata where
  title : Option String
  url : Option String
deriving DecidableEq, Repr

/-- Metadata after enrichment: `ingested_at` and `snippet` are set with
`setdefault` (always absent from the incoming metadata in this model). -/
structure EnrichedMetadata where
  base : DocMetadata
  ingestedAt : String
  snippet : String
deriving DecidableEq, Repr

/-- One entry of `ingested_index.json`:
`{"id": doc_id, "ingested_at": timestamp, "title": title, "url": url}`. -/
structure IndexEntry where
  id : String
  ingestedAt : String
  title : String
  url : String
deriving DecidableEq, Repr

/-- A backup file `documents/{doc_id}.json` holding `{content, metadata}`. -/
structure BackupDoc where
  content : String
  metadata : EnrichedMetadata
deriving DecidableEq, Repr

/-- `hashlib.sha256(raw.encode()).hexdigest()` — an external, deterministic
digest. The dedup behaviour depends only on digests of equal inputs being
equal, so the digest is modelled as an injective tagging of its input. -/
def sha256hex (s : String) : String := "sha256:" ++ s

/-- The dedup key computed by `add_document`: the digest of `url + "|" + title`
when either stripped field is non-empty, otherwise the digest of the first 200
characters of the content. -/
def dupKeyOf (content : String) (md : DocMetadata) : String :=
  let url := (md.url.getD "").trim
  let title := (md.title.getD "").trim
  sha256hex (if url ≠ "" ∨ title ≠ "" then url ++ "|" ++ title else content.take 200)

/-- The persistent state `add_document` touches: the Chroma collection
(id, content, metadata), the dedup index file, and the backup directory. -/
structure StoreState where
  collection : List (String × String × EnrichedMetadata)
  dedupIndex : List (String × IndexEntry)
  backups : List (String × BackupDoc)
deriving DecidableEq, Repr

/-- `GameVectorStore.add_document(content, metadata, doc_id)`. `docId` is the
caller-supplied or time-generated id, `ts` the `datetime.now(UTC)` stamp. A
key already present in the dedup index is rejected before any mutation;
otherwise the document, the index entry and the backup are all written. -/
def addDocument (st : StoreState) (content : String) (md : DocMetadata)
    (docId : String) (ts : String) : StoreState × Bool :=
  let url := (md.url.getD "").trim
  let title := (md.title.getD "").trim
  let enriched : EnrichedMetadata := ⟨md, ts, content.take 500⟩
  let dupKey := dupKeyOf content md
  if (st.dedupIndex.lookup dupKey).isSome then
    (st, false)
  else
    ({ collection := st.collection ++ [(docId, content, enriched)],
       dedupIndex := st.dedupIndex ++ [(dupKey, ⟨docId, ts, title, url⟩)],
       backups := st.backups ++ [(docId, ⟨content, enriched⟩)] }, true)

theorem lookup_append {β : Type} (l₁ l₂ : List (String × β)) (k : String)
    (h : l₁.lookup k = none) : (l₁ ++ l₂).lookup k = l₂.lookup k := by
  induction l₁ with
  | nil => simp
  | cons p l ih =>
    obtain ⟨a, b⟩ := p
    rw [List.cons_append]
    simp only [List.lookup] at h ⊢
    cases hak : k == a with
    | true =>
        rw [hak] at h
        exact Option.noConfusion h
    | false =>
        rw [hak] at h
        exact ih h

/-- C7: with the document's dedup key absent from the index, the first
`add_document` call returns true and appends exactly one collection entry, one
dedup-index entry `{id, timestamp, title, url}` and one backup file; an
immediately repeated call with identical content, url and title returns false
and leaves collection, index and backups unchanged. -/
theorem addDocument_of_not_seen (st : StoreState) (content : String)
    (md : DocMetadata) (docId ts : String)
    (h : st.dedupIndex.lookup (dupKeyOf content md) = none) :
    addDocument st content md docId ts =
      ({ collection := st.collection ++ [(docId, content, ⟨md, ts, content.take 500⟩)],
         dedupIndex := st.dedupIndex ++ [(dupKeyOf content md,
           ⟨docId, ts, (md.title.getD "").trim, (md.url.getD "").trim⟩)],
         backups := st.backups ++ [(docId, ⟨content, ⟨md, ts, content.take 500⟩⟩)] },
       true) := by
  have h1 : (st.dedupIndex.lookup (dupKeyOf content md)).isSome = false := by
    rw [h]; rfl
  simp only [addDocument]
  rw [h1]
  simp

theorem addDocument_of_seen (st : StoreState) (content : String)
    (md : DocMetadata) (docId ts : String)
    (h : (st.dedupIndex.lookup (dupKeyOf content md)).isSome = true) :
    addDocument st content md docId ts = (st, false) := by
  simp only [addDocument]
  rw [h]
  simp

/-- C7: with the document's dedup key absent from the index, the first
`add_document` call returns true and appends exactly one collection entry, one
dedup-index entry `{id, timestamp, title, url}` and one backup file; an
immediately repeated call with identical content, url and title returns false
and leaves collection, index and backups unchanged. -/
theorem add_document_idempotent (st : StoreState) (content : String)
    (md : DocMetadata) (id₁ ts₁ id₂ ts₂ : String)
    (h : st.dedupIndex.lookup (dupKeyOf content md) = none) :
    (addDocument st content md id₁ ts₁).2 = true ∧
    (addDocument st content md id₁ ts₁).1.collection =
      st.collection ++ [(id₁, content, ⟨md, ts₁, content.take 500⟩)] ∧
    (addDocument st content md id₁ ts₁).1.dedupIndex =
      st.dedupIndex ++ [(dupKeyOf content md,
        ⟨id₁, ts₁, (md.title.getD "").trim, (md.url.getD "").trim⟩)] ∧
    (addDocument st content md id₁ ts₁).1.backups =
      st.backups ++ [(id₁, ⟨content, ⟨md, ts₁, content.take 500⟩⟩)] ∧
    addDocument (addDocument st content md id₁ ts₁).1 content md id₂ ts₂ =
      ((addDocument st content md id₁ ts₁).1, false) := by
  have hfst := addDocument_of_not_seen st content md id₁ ts₁ h
  have hlook : ((addDocument st content md id₁ ts₁).1.dedupIndex.lookup
      (dupKeyOf content md)).isSome = true := by
    rw [hfst]
    show (List.lookup (dupKeyOf content md) (st.dedupIndex ++ _)).isSome = true
    rw [lookup_append _ _ _ h]
    simp [List.lookup_cons]
  exact ⟨by rw [hfst], by rw [hfst], by rw [hfst], by rw [hfst],
    addDocument_of_seen _ _ _ _ _ hlook⟩

/-- C7 witness: adding a concrete document to an empty store succeeds and the
immediate identical re-add is rejected without change. -/
theorem add_document_idempotent_witness :
    (addDocument ⟨[], [], []⟩ "c" ⟨some "t", some "u"⟩ "d1" "t1").2 = true ∧
    addDocument (addDocument ⟨[], [], []⟩ "c" ⟨some "t", some "u"⟩ "d1" "t1").1
        "c" ⟨some "t", some "u"⟩ "d2" "t2" =
      ((addDocument ⟨[], [], []⟩ "c" ⟨some "t", some "u"⟩ "d1" "t1").1, false) := by
  have h := add_document_idempotent ⟨[], [], []⟩ "c" ⟨some "t", some "u"⟩ "d1" "t1" "d2" "t2" rfl
  exact ⟨h.1, h.2.2.2.2⟩

/-! ## Memory store (src/tools/advanced_memory.py) -/

/-- A learned fact as built by `_extract_fact_from_result`. -/
structure Fact where
  content : String
  source : String
  title : String
  query : String
  timestamp : String
  relevanceScore : ℚ
  factType : String
deriving DecidableEq, Repr

/-- The `existing.update(fact)` branch of `_store_fact`: the loop stops at the
first stored fact whose content equals the incoming fact's content, and the
dict update overwrites every field of that entry with the incoming fact's. -/
def updateFirstFact : List Fact → Fact → List Fact
  | [], _ => []
  | x :: xs, f => if x.content == f.content then f :: xs else x :: updateFirstFact xs f

/-- `AdvancedMemorySystem._store_fact` on one user's fact list: update in
place on duplicate content, else append and keep only the last 50. -/
def storeFact (xs : List Fact) (f : Fact) : List Fact :=
  if xs.any (fun ex => ex.content == f.content) then
    updateFirstFact xs f
  else
    let ys := xs ++ [f]
    if ys.length > 50 then ys.drop (ys.length - 50) else ys

/-- One entry of the conversation-context log. -/
structure ContextItem where
  timestamp : String
  userId : String
  userQuery : String
  agentResponse : String
  contextType : String
deriving DecidableEq, Repr

/-- `AdvancedMemorySystem._update_conversation_context`: append and keep only
the last 50 entries. -/
def updateConversationContext (ctx : List ContextItem) (item : ContextItem) :
    List ContextItem :=
  let ys := ctx ++ [item]
  if ys.length > 50 then ys.drop (ys.length - 50) else ys

/-- One entry of the successful-interactions log. -/
structure Interaction where
  timestamp : String
  userQuery : String
  agentResponse : String
  userId : String
  successScore : ℚ
deriving DecidableEq, Repr

/-- The interaction-log append in `learn_from_conversation`: append and keep
only the last 100 entries. -/
def appendInteraction (log : List Interaction) (it : Interaction) :
    List Interaction :=
  let ys := log ++ [it]
  if ys.length > 100 then ys.drop (ys.length - 100) else ys

/-- A concrete fact with a numbered, pairwise-distinct content. -/
def mkFact (i : Nat) : Fact :=
  ⟨"fact number " ++ toString i, "https://example.com", "title", "query",
   "2024-01-01", mkRat 1 2, "general_info"⟩

/-- The first `n` distinct concrete facts. -/
def mkFacts (n : Nat) : List Fact := (List.range n).map mkFact

theorem updateFirstFact_length (xs : List Fact) (f : Fact) :
    (updateFirstFact xs f).length = xs.length := by
  induction xs with
  | nil => rfl
  | cons x xs ih =>
      simp only [updateFirstFact]
      by_cases hx : (x.content == f.content) = true
      · simp [hx]
      · simp only [Bool.not_eq_true] at hx
        simp [hx, ih]

set_option maxRecDepth 20000 in
/-- C8: every mutating memory operation preserves its cap — fact lists stay at
most 50 per user, the conversation-context log at most 50, the interaction log
at most 100 (oldest dropped first); storing 60 distinct facts into an empty
list leaves exactly the last 50 (the 10 oldest evicted, newest retained); and
a fact whose content matches an existing one replaces it in place, leaving the
list length unchanged. -/
theorem memory_bounds :
    (∀ xs f, xs.length ≤ 50 → (storeFact xs f).length ≤ 50) ∧
    (∀ ctx it, ctx.length ≤ 50 → (updateConversationContext ctx it).length ≤ 50) ∧
    (∀ log it, log.length ≤ 100 → (appendInteraction log it).length ≤ 100) ∧
    List.foldl storeFact [] (mkFacts 60) = (mkFacts 60).drop 10 ∧
    ((mkFacts 60).drop 10).length = 50 ∧
    (∀ xs f, (xs.any fun ex => ex.content == f.content) = true →
      (storeFact xs f).length = xs.length) := by
  refine ⟨?_, ?_, ?_, by decide, by decide, ?_⟩
  · intro xs f h
    simp only [storeFact]
    by_cases hd : (xs.any fun ex => ex.content == f.content) = true
    · simp [hd, updateFirstFact_length, h]
    · simp only [Bool.not_eq_true] at hd
      simp only [hd, Bool.false_eq_true, if_false]
      split
      · rw [List.length_drop]
        omega
      · simp only [List.length_append, List.length_singleton] at *
        omega
  · intro ctx it h
    simp only [updateConversationContext]
    split
    · rw [List.length_drop]
      omega
    · simp only [List.length_append, List.length_singleton] at *
      omega
  · intro log it h
    simp only [appendInteraction]
    split
    · rw [List.length_drop]
      omega
    · simp only [List.length_append, List.length_singleton] at *
      omega
  · intro xs f h
    simp [storeFact, h, updateFirstFact_length]

/-- C8 witness: concrete instances of the capped operations. -/
theorem memory_bounds_witness :
    (mkFacts 3).length ≤ 50 ∧ (storeFact (mkFacts 3) (mkFact 7)).length ≤ 50 ∧
    ((mkFacts 3).any fun ex => ex.content == (mkFact 1).content) = true ∧
    (storeFact (mkFacts 3) (mkFact 1)).length = (mkFacts 3).length := by
  refine ⟨by decide, memory_bounds.1 (mkFacts 3) (mkFact 7) (by decide), by decide,
    memory_bounds.2.2.2.2.2 (mkFacts 3) (mkFact 1) (by decide)⟩

/-- Python's `needle in haystack` substring test, via `splitOn`: a non-empty
pattern occurs iff splitting on it yields more than one piece (all needles
below come from fixed non-empty keyword lists). -/
def strContains (haystack needle : String) : Bool :=
  (haystack.splitOn needle).length ≥ 2

def containsAny (c : String) (ws : List String) : Bool :=
  ws.any (fun w => strContains c w)

/-- `_classify_fact_type`: keyword classification of a fact's content. -/
def classifyFactType (content : String) : String :=
  let c := content.toLower
  if containsAny c ["released", "launch", "came out"] then "release_info"
  else if containsAny c ["genre", "type", "category"] then "genre_info"
  else if containsAny c ["platform", "console", "system"] then "platform_info"
  else if containsAny c ["publisher", "developer", "studio"] then "publisher_info"
  else if containsAny c ["review", "rating", "score"] then "review_info"
  else "general_info"

/-- `_extract_fact_from_result`: no fact when the content is empty or shorter
than 50 characters; otherwise a bounded, classified fact record. -/
def extractFactFromResult (query : String) (r : WebResult) (ts : String) :
    Option Fact :=
  if r.content == "" || r.content.length < 50 then none
  else some ⟨r.content.take 300, r.url, r.title, query, ts, r.relevanceScore,
    classifyFactType r.content⟩

/-- Update-or-insert on a string-keyed association list (a Python dict update:
an existing key keeps its position, a new key is appended). -/
def setAssoc {β : Type} (l : List (String × β)) (k : String) (v : β) :
    List (String × β) :=
  if (l.lookup k).isSome then
    l.map (fun p => if p.1 == k then (p.1, v) else p)
  else l ++ [(k, v)]

/-- `UserPreferenceProfile` (`user_preferences[user_id]`). -/
structure Prefs where
  genres : List String
  platforms : List String
  publishers : List String
  interests : List String
  lastUpdated : String
deriving DecidableEq, Repr

def genreKeywords : List String :=
  ["action", "rpg", "adventure", "racing", "sports", "fighting", "puzzle", "strategy"]

def platformKeywords : List String :=
  ["playstation", "xbox", "nintendo", "pc", "mobile"]

/-- The keyword loop of `_update_user_preferences`: append each keyword that
occurs in the lowered query and is not yet in the current list. -/
def appendNewMatches (queryLower : String) (keywords current : List String) :
    List String :=
  keywords.foldl
    (fun acc kw =>
      if strContains queryLower kw && !(acc.contains kw) then acc ++ [kw] else acc)
    current

/-- `_update_user_preferences`. -/
def updateUserPreferences (prefs : List (String × Prefs)) (query uid now : String) :
    List (String × Prefs) :=
  let p := (prefs.lookup uid).getD ⟨[], [], [], [], now⟩
  let ql := query.toLower
  let p1 := { p with genres := appendNewMatches ql genreKeywords p.genres,
                     platforms := appendNewMatches ql platformKeywords p.platforms,
                     lastUpdated := now }
  setAssoc prefs uid p1

/-- One `learned_patterns` statistic. -/
structure PatternStat where
  queryPattern : String
  successCount : Nat
  avgResults : ℚ
  lastSuccess : Option String
deriving DecidableEq, Repr

/-- Python computes the pattern key as `hash(query) % 1000` — a per-run salted
opaque value whose only load-bearing property is determinism within a run; it
is therefore modelled as a deterministic function of the query. -/
def queryPatternKey (q : String) : String := "search_pattern_" ++ q

/-- `_learn_search_pattern`. -/
def learnSearchPattern (patterns : List (String × PatternStat))
    (q : String) (totalResults : Nat) (now : String) :
    List (String × PatternStat) :=
  let key := queryPatternKey q
  let p := (patterns.lookup key).getD ⟨q, 0, 0, none⟩
  let p1 := { p with successCount := p.successCount + 1,
                     avgResults := (p.avgResults + (totalResults : ℚ)) / 2,
                     lastSuccess := some now }
  setAssoc patterns key p1

/-- The saved copy of `memory.json`, written whole by `_save_memory`. -/
structure MemorySnapshot where
  facts : List (String × List Fact)
  userPreferences : List (String × Prefs)
  conversationContext : List ContextItem
  learnedPatterns : List (String × PatternStat)
  successfulInteractions : List Interaction
  lastUpdated : String
deriving DecidableEq, Repr

/-- The in-memory state of `AdvancedMemorySystem` together with its
persistence file (`none` when nothing has been saved yet). -/
structure MemoryState where
  facts : List (String × List Fact)
  userPreferences : List (String × Prefs)
  conversationContext : List ContextItem
  learnedPatterns : List (String × PatternStat)
  successfulInteractions : List Interaction
  savedFile : Option MemorySnapshot
deriving DecidableEq, Repr

/-- `_save_memory`: whole-file rewrite of every category. -/
def saveMemory (st : MemoryState) (now : String) : MemoryState :=
  { st with savedFile := some ⟨st.facts, st.userPreferences,
      st.conversationContext, st.learnedPatterns, st.successfulInteractions, now⟩ }

/-- The fact-storing loop of `learn_from_web_search`: one `_store_fact` per
extractable result. -/
def learnFactsFromResults (facts : List (String × List Fact))
    (query uid now : String) (results : List WebResult) :
    List (String × List Fact) :=
  results.foldl
    (fun acc r =>
      match extractFactFromResult query r now with
      | some f => setAssoc acc uid (storeFact ((acc.lookup uid).getD []) f)
      | none => acc)
    facts

/-- The parsed payload handed to `learn_from_web_search`; `results?` is `none`
when the "results" key is missing, and `totalResults` mirrors
`results.get("total_results", 0)`. -/
structure WebPayload where
  results? : Option (List WebResult)
  totalResults : Nat
deriving DecidableEq, Repr

/-- `AdvancedMemorySystem.learn_from_web_search(query, results, user_id)`:
returns immediately when the "results" field is missing or empty; otherwise
stores extracted facts, updates the user's preferences, learns a search
pattern when `total_results > 0`, and ends with the whole-file save. -/
def learnFromWebSearch (st : MemoryState) (query : String) (payload : WebPayload)
    (uid now : String) : MemoryState :=
  if (payload.results?.getD []).isEmpty then st
  else
    let results := payload.results?.getD []
    let facts1 := learnFactsFromResults st.facts query uid now results
    let prefs1 := updateUserPreferences st.userPreferences query uid now
    let patterns1 :=
      if payload.totalResults > 0 then
        learnSearchPattern st.learnedPatterns query payload.totalResults now
      else st.learnedPatterns
    let st1 := { st with facts := facts1, userPreferences := prefs1,
                         learnedPatterns := patterns1 }
    saveMemory st1 now

/-- C10: calling `learn_from_web_search` with a missing or empty "results"
field is a complete no-op: no fact, preference, pattern or context structure
is mutated and the persistence file is untouched, because the guard returns
before any state change; by contrast, any call that sees a non-empty results
list ends with a whole-file save. -/
theorem learn_from_web_search_empty_noop (st : MemoryState)
    (query uid now : String) (payload : WebPayload)
    (h : (payload.results?.getD []).isEmpty = true) :
    learnFromWebSearch st query payload uid now = st ∧
    (learnFromWebSearch st query payload uid now).savedFile = st.savedFile ∧
    (∀ st2 q2 u2 n2 (p2 : WebPayload) r rs, p2.results? = some (r :: rs) →
      ((learnFromWebSearch st2 q2 p2 u2 n2).savedFile).isSome = true) := by
  have h1 : learnFromWebSearch st query payload uid now = st := by
    simp [learnFromWebSearch, h]
  refine ⟨h1, by rw [h1], ?_⟩
  intro st2 q2 u2 n2 p2 r rs hp
  simp [learnFromWebSearch, hp, saveMemory]

/-- C10 witness: a concrete call with a missing "results" field leaves a
non-trivial memory state exactly as it was, file included. -/
theorem learn_from_web_search_empty_noop_witness :
    (((⟨none, 0⟩ : WebPayload)).results?.getD []).isEmpty = true ∧
    learnFromWebSearch ⟨[("default", mkFacts 2)], [], [], [], [], none⟩
        "q" ⟨none, 0⟩ "default" "t" =
      ⟨[("default", mkFacts 2)], [], [], [], [], none⟩ :=
  ⟨rfl, (learn_from_web_search_empty_noop
    ⟨[("default", mkFacts 2)], [], [], [], [], none⟩ "q" "default" "t" ⟨none, 0⟩ rfl).1⟩

/-! ## Retrieval gateway (src/database/vector_store.py `search_games` and
src/tools/retrieve_game.py `RetrieveGameTool.__call__`) -/

/-- A JSON-like value. The dicts flowing from `search_games` into
`RetrieveGameTool` are heterogeneous and accessed by string key — and
`result["game"]` can raise `KeyError` — so they are modelled as string-keyed
association lists of such values. -/
inductive JVal where
  | str (s : String)
  | num (q : ℚ)
  | int (n : Int)
  | arr (xs : List JVal)

/-- A Python dict with string keys. -/
abbrev JObj := List (String × JVal)

/-- The first-query slices of the ChromaDB `collection.query` response:
`documents[0]`, `distances[0]`, `metadatas[0]`; the metadata entries are the
game records stored at indexing time. -/
structure QueryRes where
  documents : List String
  distances : List ℚ
  metadatas : List Game
deriving DecidableEq, Repr

/-- Python `zip(..., strict=False)` over three lists: truncates to the
shortest. -/
def zip3 {α β γ : Type} : List α → List β → List γ → List (α × β × γ)
  | a :: as, b :: bs, c :: cs => (a, b, c) :: zip3 as bs cs
  | _, _, _ => []

/-- `GameVectorStore.search_games`: one result dict per hit, carrying the
aliased game fields, the document text, the distance, `similarity_score`
computed as 1 - distance, and a 1-based rank; any backend exception is caught
and an empty list returned. (No dict carries a "game" key.) -/
def searchGames (backend : Except String QueryRes) : List JObj :=
  match backend with
  | .error _ => []
  | .ok r =>
      (zip3 r.documents r.distances r.metadatas).enum.map
        (fun (i, doc, dist, md) =>
          [("Name", JVal.str md.name), ("Platform", JVal.str md.platform),
           ("Genre", JVal.str md.genre), ("Publisher", JVal.str md.publisher),
           ("Description", JVal.str md.description),
           ("YearOfRelease", JVal.int md.yearOfRelease),
           ("content", JVal.str doc), ("distance", JVal.num dist),
           ("similarity_score", JVal.num (1 - dist)),
           ("rank", JVal.int ((i : Int) + 1))])

/-- Python `result[key]` on a dict: the stored value, or a raised `KeyError`
whose `str()` is the key wrapped in single quotes. -/
def dictGet (o : JObj) (k : String) : Except String JVal :=
  match o.lookup k with
  | some v => .ok v
  | none => .error ("\x27" ++ k ++ "\x27")

/-- Numeric reading of a JSON value (the summed `similarity_score` entries are
always `num`s by construction in `searchGames`). -/
def jvalToRat : JVal → ℚ
  | .num q => q
  | .int n => (n : ℚ)
  | _ => 0

/-- The empty-result envelope of `RetrieveGameTool.__call__`. -/
def emptyEnvelope (q : String) : JObj :=
  [("games", JVal.arr []), ("query", JVal.str q), ("total_results", JVal.int 0),
   ("confidence_score", JVal.num 0), ("search_method", JVal.str "vector_db"),
   ("message", JVal.str "No games found matching the query")]

/-- The except-clause envelope of `RetrieveGameTool.__call__`: note it has an
"error" key and no "games" or "message" key. -/
def errorEnvelope (q e : String) : JObj :=
  [("error", JVal.str ("Error searching games: " ++ e)),
   ("query", JVal.str q), ("total_results", JVal.int 0),
   ("confidence_score", JVal.num 0), ("search_method", JVal.str "vector_db")]

/-- The `GameSearchResult` envelope built on the (never reached) success path
for non-empty results. -/
def successEnvelope (games : List JVal) (q : String) (n : Nat) (conf : ℚ) : JObj :=
  [("games", JVal.arr games), ("query", JVal.str q),
   ("total_results", JVal.int (n : Int)), ("confidence_score", JVal.num conf),
   ("search_method", JVal.str "vector_db")]

/-- The try-block body of `RetrieveGameTool.__call__` after `search_games`
returned: empty results short-circuit to the empty envelope; otherwise the
code reads `result["game"]` from every result (the `KeyError` source), then
averages the `similarity_score`s, clamps to [0,1], and builds the success
envelope. -/
def retrieveBody (sr : List JObj) (q : String) : Except String JObj := do
  if sr.isEmpty then
    return emptyEnvelope q
  else
    let games ← sr.mapM (fun r => dictGet r "game")
    let scores ← sr.mapM (fun r => dictGet r "similarity_score")
    let avg := (scores.map jvalToRat).sum / (sr.length : ℚ)
    let avgClamped := max 0 (min 1 avg)
    return successEnvelope games q sr.length avgClamped

/-- `RetrieveGameTool.__call__`: any exception in the body — including the
`KeyError` — is caught and converted to the error envelope. -/
def retrieveGameCall (backend : Except String QueryRes) (q : String) : JObj :=
  match retrieveBody (searchGames backend) q with
  | .ok env => env
  | .error e => errorEnvelope q e

/-- A backend response with exactly one hit at distance 0.2 (similarity 0.8).
-/
def oneHitBackend : Except String QueryRes :=
  Except.ok ⟨["[PlayStation 1] Gran Turismo (1997)"], [mkRat 1 5],
             [⟨"Gran Turismo", "PlayStation 1", "Racing",
               "Sony Computer Entertainment", "A realistic racing simulator", 1997⟩]⟩

/-- C9: on any non-empty backend result the tool never reaches the
mean-confidence computation: `search_games` returns dicts without a "game"
key, `result["game"]` raises `KeyError`, and the call returns the except-
clause envelope — whose shape differs from the empty-result envelope (an
"error" key, no "games"/"message" keys) and whose confidence is 0.0 rather
than the 0.8 mean of similarity scores. The empty-result and backend-failure
cases do yield the documented empty envelope. -/
theorem retrieve_game_key_error :
    retrieveGameCall oneHitBackend "racing" =
      errorEnvelope "racing" "\x27game\x27" ∧
    (retrieveGameCall oneHitBackend "racing").lookup "confidence_score" =
      some (JVal.num 0) ∧
    (retrieveGameCall oneHitBackend "racing").lookup "games" = none ∧
    (retrieveGameCall oneHitBackend "racing").lookup "error" =
      some (JVal.str ("Error searching games: \x27game\x27")) ∧
    (searchGames oneHitBackend).length = 1 ∧
    ((searchGames oneHitBackend).headD []).lookup "similarity_score" =
      some (JVal.num (mkRat 4 5)) ∧
    retrieveGameCall (Except.ok ⟨[], [], []⟩) "racing" = emptyEnvelope "racing" ∧
    retrieveGameCall (Except.error "backend down") "racing" =
      emptyEnvelope "racing" := by
  refine ⟨rfl, rfl, rfl, rfl, rfl, ?_, rfl, rfl⟩
  show some (JVal.num (1 - mkRat 1 5)) = some (JVal.num (mkRat 4 5))
  norm_num [mkRat, Rat.normalize]

end UdaPlay
